import Mathlib

/-!
Shallow embedding of the ShopStream billing-guard application (src/app.py).

The program is a single-threaded UI application; the parts the claims are
about are:

* `monitor_guard`  — a context manager that, on construction, stores its
  inputs, generates a transaction identifier and initializes the Supabase
  client (`init_supabase`, which reads `st.secrets` and calls
  `create_client`); on `__enter__` it emits a toast; on `__exit__` it
  decides a status (`VOIDED` when an exception occurred, `PROVISIONAL`
  otherwise), attempts to insert one record into the `transactions` table
  (`_log_transaction`, which catches any insert failure and reports it via
  `st.error`), and returns `False` so exceptions are never suppressed.
* `run_batch_operations` — a sequential loop running an operation `count`
  times, catching each iteration's exception, tallying successes/failures.
* `fetch_recent_transactions` — selects records ordered by `created_at`
  descending, capped at `limit`; on failure reports and returns `[]`.
* `void_transaction` — updates the record(s) matching an id to status
  `VOIDED`, catching any failure.

Modelling conventions: the Supabase `transactions` table is a
`List Transaction` (inserts append); the external store's possible failure
of an insert / update / select call is a `Bool` parameter (`true` = the
call raises, as the opaque backend may); wall-clock time (`datetime.utcnow`)
and the generated uuid are explicit parameters; Python floats for prices
are modelled as rationals; every user-visible side channel (`st.toast`,
`st.success`, `st.error`, `st.warning`, `print`, and the client
initialization performed by `init_supabase`) is an `Effect` in an emitted
trace.
-/

/-- Transaction status enum: the only two values the program ever writes. -/
inductive Status where
  | PROVISIONAL
  | VOIDED
deriving DecidableEq, Repr

/-- A Python exception as observed by the guard and the caller:
its type and its message. -/
structure Err where
  ty : String
  msg : String
deriving DecidableEq, Repr

/-- One row of the `transactions` table, exactly the dict built in
`monitor_guard._log_transaction`. `created_at` (an ISO-8601 UTC string in
the source) is modelled as a numeric timestamp. -/
structure Transaction where
  id : String
  entity_id : String
  product_key : String
  status : Status
  revenue : ℚ
  created_at : ℕ
deriving DecidableEq, Repr

/-- Observable side effects of the program: UI messages, console output,
and the Supabase client initialization done by `init_supabase` (which
reads the secrets configuration and constructs the client). -/
inductive Effect where
  | clientInit
  | toast (msg : String)
  | consoleLog (msg : String)
  | successMsg (msg : String)
  | errorMsg (msg : String)
  | warningMsg (msg : String)
  | infoMsg (msg : String)
deriving DecidableEq, Repr

/-- The result a guarded body produced: normal completion or a raised
exception. -/
abbrev BodyResult := Except Err Unit

/-- The exception information handed to `__exit__` by the `with`
statement: `some e` when the body raised `e`, `none` on normal
completion. -/
def bodyExc : BodyResult → Option Err
  | Except.ok _ => none
  | Except.error e => some e

/-- The guard object state, as set up by `monitor_guard.__init__`. -/
structure monitor_guard where
  entity_id : String
  product_key : String
  revenue_potential : ℚ
  transaction_id : String
  exception_occurred : Bool
deriving DecidableEq, Repr

/-- `monitor_guard.__init__(entity_id, product_key, revenue_potential)`:
stores the three inputs unvalidated, sets `transaction_id` to the freshly
generated uuid (`str(uuid.uuid4())`, here the parameter `uuid`), sets
`exception_occurred = False`, and calls `init_supabase()` — which reads
`st.secrets` and calls `create_client` — recorded as the `clientInit`
effect. The store (the `transactions` table) is passed through untouched:
construction performs no insert. -/
def monitor_guard.init (entity_id product_key : String)
    (revenue_potential : ℚ) (uuid : String) (store : List Transaction) :
    monitor_guard × List Transaction × List Effect :=
  (⟨entity_id, product_key, revenue_potential, uuid, false⟩,
   store, [Effect.clientInit])

/-- `monitor_guard.__enter__`: emits the "Tracking started" toast and
returns the guard; the store is untouched. -/
def monitor_guard.enter (g : monitor_guard) (store : List Transaction) :
    monitor_guard × List Transaction × List Effect :=
  (g, store, [Effect.toast ("Tracking started: " ++ g.product_key)])

/-- The status decided in `monitor_guard.__exit__`: `VOIDED` when
`exc_type is not None`, `PROVISIONAL` otherwise. -/
def monitor_guard.exitStatus (exc : Option Err) : Status :=
  match exc with
  | some _ => Status.VOIDED
  | none => Status.PROVISIONAL

/-- The transaction dict built in `monitor_guard._log_transaction`:
id, entity_id, product_key, status, revenue, created_at (current UTC time
at exit, parameter `now`). -/
def monitor_guard.mkTxn (g : monitor_guard) (status : Status) (now : ℕ) :
    Transaction :=
  ⟨g.transaction_id, g.entity_id, g.product_key, status,
   g.revenue_potential, now⟩

/-- `monitor_guard._log_transaction(status)`: builds the transaction dict
and inserts it into the `transactions` table inside a `try`; when the
insert raises (`insertFails = true`, the store being an opaque external
collaborator) the exception is caught and reported via
`st.error("Failed to log transaction: ...")`, leaving the table unchanged.
The function itself never raises. -/
def monitor_guard.log_transaction (g : monitor_guard) (status : Status)
    (now : ℕ) (insertFails : Bool) (store : List Transaction) :
    List Transaction × List Effect :=
  if insertFails then
    (store, [Effect.errorMsg "Failed to log transaction"])
  else
    (store ++ [g.mkTxn status now], [])

/-- `monitor_guard.__exit__(exc_type, exc_val, exc_tb)`: decides the
status (`VOIDED` with a console message when an exception occurred,
`PROVISIONAL` otherwise), calls `_log_transaction(status)`, and returns
`False` (the final `Bool`), so the `with` statement never suppresses the
exception. -/
def monitor_guard.exit (g : monitor_guard) (exc : Option Err) (now : ℕ)
    (insertFails : Bool) (store : List Transaction) :
    List Transaction × List Effect × Bool :=
  let status := monitor_guard.exitStatus exc
  let preEffs : List Effect :=
    match exc with
    | some e =>
        [Effect.consoleLog
          ("VOIDED: " ++ g.product_key ++ " for " ++ g.entity_id ++
           " - Exception: " ++ e.msg)]
    | none => []
  let logRes := g.log_transaction status now insertFails store
  (logRes.1, preEffs ++ logRes.2, false)

/-- Semantics of `with monitor_guard(...) as g: body` given an already
constructed guard: run `__enter__`, run the body, call `__exit__` with
the exception information, and — per the semantics of the `with`
statement — propagate the exception of the body to the caller unless
`__exit__` returned a truthy value. -/
def withGuard (g : monitor_guard) (body : BodyResult) (now : ℕ)
    (insertFails : Bool) (store : List Transaction) :
    List Transaction × List Effect × BodyResult :=
  let enterRes := g.enter store
  let exitRes :=
    enterRes.1.exit (bodyExc body) now insertFails enterRes.2.1
  let result : BodyResult :=
    if exitRes.2.2 then Except.ok () else body
  (exitRes.1, enterRes.2.2 ++ exitRes.2.1, result)

/-- A full guarded invocation: construct the guard (`monitor_guard(...)`),
then execute the `with` block around the given body. Returns the final
store, the emitted effect trace, and the outcome the caller observes. -/
def guardedRun (entity_id product_key : String) (revenue_potential : ℚ)
    (uuid : String) (body : BodyResult) (now : ℕ) (insertFails : Bool)
    (store : List Transaction) :
    List Transaction × List Effect × BodyResult :=
  let initRes :=
    monitor_guard.init entity_id product_key revenue_potential uuid store
  let runRes := withGuard initRes.1 body now insertFails initRes.2.1
  (runRes.1, initRes.2.2 ++ runRes.2.1, runRes.2.2)

/-- `add_product_listing(entity_id, force_failure)`: a guarded "listing"
operation at price 0.10 whose body raises
`Exception("Forced failure during product listing creation")` exactly when
`force_failure` is set, and completes normally otherwise. -/
def add_product_listing (entity_id : String) (force_failure : Bool)
    (uuid : String) (now : ℕ) (insertFails : Bool)
    (store : List Transaction) :
    List Transaction × List Effect × BodyResult :=
  guardedRun entity_id "listing" (1 / 10) uuid
    (if force_failure then
       Except.error ⟨"Exception", "Forced failure during product listing creation"⟩
     else Except.ok ())
    now insertFails store

/-- `generate_smart_copy(entity_id, force_failure)`: a guarded
"smart_copy" operation at price 1.00, raising exactly when `force_failure`
is set. -/
def generate_smart_copy (entity_id : String) (force_failure : Bool)
    (uuid : String) (now : ℕ) (insertFails : Bool)
    (store : List Transaction) :
    List Transaction × List Effect × BodyResult :=
  guardedRun entity_id "smart_copy" 1 uuid
    (if force_failure then
       Except.error ⟨"Exception", "Forced failure during smart copy generation"⟩
     else Except.ok ())
    now insertFails store

/-- `brand_safety_check(entity_id, force_failure)`: a guarded
"brand_guard" operation at price 5.00, raising exactly when
`force_failure` is set. -/
def brand_safety_check (entity_id : String) (force_failure : Bool)
    (uuid : String) (now : ℕ) (insertFails : Bool)
    (store : List Transaction) :
    List Transaction × List Effect × BodyResult :=
  guardedRun entity_id "brand_guard" 5 uuid
    (if force_failure then
       Except.error ⟨"Exception", "Forced failure during brand safety check"⟩
     else Except.ok ())
    now insertFails store

/-- One operation function as passed to `run_batch_operations`: given the
tenant, the failure flag, the iteration index (standing for the fresh
uuid / timestamp supply of that iteration) and the current store, it
returns the new store, its effects, and its outcome. -/
abbrev OperationFunc :=
  String → Bool → ℕ → List Transaction →
    List Transaction × List Effect × BodyResult

/-- The `for i in range(count)` loop body of `run_batch_operations`,
iterated for the first `n` iterations: each iteration calls
`operation_func(entity_id, force_failure)` inside a `try`; on normal
completion `success_count` is incremented, on an exception the exception
is caught, `failure_count` is incremented and a warning is surfaced;
either way the loop continues with the next iteration. Returns
(store, success_count, failure_count, effects). -/
def batchLoop (operation_func : OperationFunc) (entity_id : String)
    (force_failure : Bool) : ℕ → List Transaction →
    List Transaction × ℕ × ℕ × List Effect
  | 0, store => (store, 0, 0, [])
  | n + 1, store =>
      let prev := batchLoop operation_func entity_id force_failure n store
      let opRes := operation_func entity_id force_failure n prev.1
      match opRes.2.2 with
      | Except.ok _ =>
          (opRes.1, prev.2.1 + 1, prev.2.2.1, prev.2.2.2 ++ opRes.2.1)
      | Except.error e =>
          (opRes.1, prev.2.1, prev.2.2.1 + 1,
           prev.2.2.2 ++ opRes.2.1 ++
             [Effect.warningMsg
               ("Batch " ++ toString (n + 1) ++ " failed: " ++ e.msg)])

/-- `run_batch_operations(operation_func, entity_id, count, force_failure)`:
runs the operation `count` times sequentially via the loop above, then
reports the final tally with `st.success`. -/
def run_batch_operations (operation_func : OperationFunc)
    (entity_id : String) (count : ℕ) (force_failure : Bool)
    (store : List Transaction) :
    List Transaction × ℕ × ℕ × List Effect :=
  let res := batchLoop operation_func entity_id force_failure count store
  (res.1, res.2.1, res.2.2.1,
   res.2.2.2 ++
     [Effect.successMsg
       ("Batch complete: " ++ toString res.2.1 ++ " succeeded, " ++
        toString res.2.2.1 ++ " failed")])

/-- Insert a transaction into a list kept sorted by `created_at`
descending (newest first). -/
def insertByCreatedAtDesc (t : Transaction) :
    List Transaction → List Transaction
  | [] => [t]
  | u :: us =>
      if u.created_at ≤ t.created_at then t :: u :: us
      else u :: insertByCreatedAtDesc t us

/-- The select-call ordering, from the chained order call with
descending flag: sort the table by `created_at` descending
(newest first). -/
def sortByCreatedAtDesc : List Transaction → List Transaction
  | [] => []
  | t :: ts => insertByCreatedAtDesc t (sortByCreatedAtDesc ts)

/-- `fetch_recent_transactions(limit)`: selects from `transactions`
ordered by `created_at` descending capped at `limit`, inside a `try`;
when the select raises (`queryFails = true`) the exception is caught,
reported via `st.error`, and `[]` is returned. Never raises. -/
def fetch_recent_transactions (limit : ℕ) (queryFails : Bool)
    (store : List Transaction) : List Transaction × List Effect :=
  if queryFails then
    ([], [Effect.errorMsg "Failed to fetch transactions"])
  else
    ((sortByCreatedAtDesc store).take limit, [])

/-- `void_transaction(transaction_id)`: issues
`update({"status": "VOIDED"}).eq("id", transaction_id)` — setting the
status of every record matching the id to `VOIDED`, regardless of its
current status and without checking that a match exists — inside a `try`;
when the update raises (`updateFails = true`) the exception is caught and
reported via `st.error`. Never raises. -/
def void_transaction (transaction_id : String) (updateFails : Bool)
    (store : List Transaction) : List Transaction × List Effect :=
  if updateFails then
    (store, [Effect.errorMsg "Failed to void transaction"])
  else
    (store.map (fun t =>
       if t.id = transaction_id then { t with status := Status.VOIDED } else t),
     [Effect.successMsg "Transaction voided successfully"])

/-- The store-affecting operations the system can perform, for stating
whole-system temporal properties: a guarded invocation, a manual void, or
a read. -/
inductive SysOp where
  | guarded (entity_id product_key : String) (revenue_potential : ℚ)
      (uuid : String) (body : BodyResult) (now : ℕ) (insertFails : Bool)
  | voidTxn (transaction_id : String) (updateFails : Bool)
  | fetchRecent (limit : ℕ) (queryFails : Bool)

/-- The effect of one system operation on the `transactions` table. -/
def applySysOp (store : List Transaction) : SysOp → List Transaction
  | SysOp.guarded e p r u body now iFail =>
      (guardedRun e p r u body now iFail store).1
  | SysOp.voidTxn id uFail => (void_transaction id uFail store).1
  | SysOp.fetchRecent _ _ => store

/-- Run a sequence of system operations from an initial table state. -/
def runSysOps (store : List Transaction) (ops : List SysOp) :
    List Transaction :=
  ops.foldl applySysOp store

/-! ### Basic facts about a single guarded invocation -/

/-- When the store accepts the insert, a guarded run appends exactly one
record, built from the construction inputs, the decided status, and the
exit time. -/
theorem guardedRun_store_ok (e p u : String) (r : ℚ) (body : BodyResult)
    (now : ℕ) (store : List Transaction) :
    (guardedRun e p r u body now false store).1 =
      store ++ [⟨u, e, p, monitor_guard.exitStatus (bodyExc body), r, now⟩] := by
  cases body <;>
    simp [guardedRun, withGuard, monitor_guard.init, monitor_guard.enter,
      monitor_guard.exit, monitor_guard.log_transaction, monitor_guard.mkTxn,
      bodyExc]

/-- When the insert raises, the exception is caught in
`_log_transaction` and the table is left unchanged. -/
theorem guardedRun_store_insertFails (e p u : String) (r : ℚ)
    (body : BodyResult) (now : ℕ) (store : List Transaction) :
    (guardedRun e p r u body now true store).1 = store := by
  cases body <;>
    simp [guardedRun, withGuard, monitor_guard.init, monitor_guard.enter,
      monitor_guard.exit, monitor_guard.log_transaction, bodyExc]

/-- Because `__exit__` returns `False`, the outcome the caller observes
is exactly the outcome of the body, whether or not the insert failed. -/
theorem guardedRun_result (e p u : String) (r : ℚ) (body : BodyResult)
    (now : ℕ) (insertFails : Bool) (store : List Transaction) :
    (guardedRun e p r u body now insertFails store).2.2 = body := by
  cases body <;> cases insertFails <;>
    simp [guardedRun, withGuard, monitor_guard.init, monitor_guard.enter,
      monitor_guard.exit, monitor_guard.log_transaction, bodyExc]

/-- When the insert raises, the caught failure is reported through
`st.error`. -/
theorem guardedRun_logFailure_reported (e p u : String) (r : ℚ)
    (body : BodyResult) (now : ℕ) (store : List Transaction) :
    Effect.errorMsg "Failed to log transaction" ∈
      (guardedRun e p r u body now true store).2.1 := by
  cases body <;>
    simp [guardedRun, withGuard, monitor_guard.init, monitor_guard.enter,
      monitor_guard.exit, monitor_guard.log_transaction, bodyExc]

/-! ### C1 — one record per guarded invocation -/

/-- C1, counterexample: the claim says a guarded invocation inserts
exactly one record, never zero; but when the store rejects the insert
(which `_log_transaction` catches), zero records are inserted for the
invocation. -/
theorem C1_counterexample :
    (guardedRun "Test Shop A" "listing" (1 / 10) "txn-0001" (Except.ok ())
      7 true []).1 = [] ∧
    ¬ (guardedRun "Test Shop A" "listing" (1 / 10) "txn-0001" (Except.ok ())
      7 true []).1.length = 1 := by
  exact ⟨guardedRun_store_insertFails .., by
    rw [guardedRun_store_insertFails]; decide⟩

/-- C1, amended: when the store accepts the insert, every guarded
invocation (body succeeding or raising) inserts exactly one record into
the transactions table, whose id equals the identifier generated at guard
construction; when the store rejects the insert, no record is inserted. -/
theorem C1_exactly_one_record_when_store_accepts (e p u : String) (r : ℚ)
    (body : BodyResult) (now : ℕ) (store : List Transaction) :
    (∃ t : Transaction,
      (guardedRun e p r u body now false store).1 = store ++ [t] ∧
      t.id = u) ∧
    (guardedRun e p r u body now true store).1 = store :=
  ⟨⟨_, guardedRun_store_ok e p u r body now store, rfl⟩,
   guardedRun_store_insertFails e p u r body now store⟩

/-! ### C2 — status reflects the body outcome -/

/-- C2: the single record written at guard exit has status PROVISIONAL
precisely when the body completed without raising, VOIDED precisely when
it raised, and the status is always exactly one of the two. -/
theorem C2_status_matches_outcome (e p u : String) (r : ℚ)
    (body : BodyResult) (now : ℕ) (store : List Transaction) :
    ∃ t : Transaction,
      (guardedRun e p r u body now false store).1 = store ++ [t] ∧
      (t.status = Status.PROVISIONAL ↔ body = Except.ok ()) ∧
      (t.status = Status.VOIDED ↔ ∃ err, body = Except.error err) ∧
      (t.status = Status.PROVISIONAL ↔ ¬ t.status = Status.VOIDED) := by
  refine ⟨_, guardedRun_store_ok e p u r body now store, ?_, ?_, ?_⟩ <;>
    cases body <;> simp [monitor_guard.exitStatus, bodyExc]

/-! ### C3 — body errors propagate unchanged -/

/-- C3: when the guarded body raises an error, the guard never suppresses
it: after the record is written the very same error (same type and
message) is what the caller observes. -/
theorem C3_error_propagates (e p u : String) (r : ℚ) (body : BodyResult)
    (now : ℕ) (insertFails : Bool) (store : List Transaction) (err : Err)
    (hbody : body = Except.error err) :
    (guardedRun e p r u body now insertFails store).2.2 =
      Except.error err := by
  subst hbody
  exact guardedRun_result e p u r _ now insertFails store

/-- Witness for C3 at a concrete failing smart-copy invocation. -/
theorem C3_witness :
    ((Except.error
        { ty := "Exception",
          msg := "Forced failure during smart copy generation" } :
        BodyResult) =
      Except.error
        { ty := "Exception",
          msg := "Forced failure during smart copy generation" }) ∧
    (guardedRun "Test Shop A" "smart_copy" 1 "txn-0002"
        (Except.error
          { ty := "Exception",
            msg := "Forced failure during smart copy generation" })
        3 false []).2.2 =
      Except.error
        { ty := "Exception",
          msg := "Forced failure during smart copy generation" } :=
  ⟨rfl, C3_error_propagates "Test Shop A" "smart_copy" "txn-0002" 1 _ 3
    false [] _ rfl⟩

/-! ### C4 — persistence failure stays at its boundary -/

/-- C4: when the persistence insert itself fails, the failure is reported
through the error channel, yet the outcome observed by the caller is
exactly the outcome of the body: a succeeding body still completes
normally and a failing body still propagates its own error. -/
theorem C4_persistence_failure_isolated (e p u : String) (r : ℚ)
    (body : BodyResult) (now : ℕ) (store : List Transaction) :
    (guardedRun e p r u body now true store).2.2 = body ∧
    Effect.errorMsg "Failed to log transaction" ∈
      (guardedRun e p r u body now true store).2.1 :=
  ⟨guardedRun_result e p u r body now true store,
   guardedRun_logFailure_reported e p u r body now store⟩

/-! ### C5 — batch tally -/

/-- After the first `n` iterations of the batch loop, the success and
failure tallies sum to `n`: every iteration is counted exactly once,
whether it completed or raised. -/
theorem batchLoop_counts (op : OperationFunc) (e : String) (ff : Bool)
    (n : ℕ) (store : List Transaction) :
    (batchLoop op e ff n store).2.1 + (batchLoop op e ff n store).2.2.1
      = n := by
  induction n generalizing store with
  | zero => rfl
  | succ n ih =>
      have hsum := ih store
      simp only [batchLoop]
      cases hr : (op e ff n (batchLoop op e ff n store).1).2.2 with
      | ok v => simp only [hr]; omega
      | error err => simp only [hr]; omega

/-- C5: for every count of at least one and any failure-injection flag,
the batch runner executes all iterations, counting each one as a success
or as a caught failure, and ends with success plus failure tallies equal
to the count. -/
theorem C5_batch_sum (op : OperationFunc) (e : String) (count : ℕ)
    (ff : Bool) (store : List Transaction) (hcount : 1 ≤ count) :
    (run_batch_operations op e count ff store).2.1 +
      (run_batch_operations op e count ff store).2.2.1 = count := by
  simpa [run_batch_operations] using batchLoop_counts op e ff count store

/-- Witness for C5: a batch of three forced-failure listing operations. -/
theorem C5_witness :
    (1 : ℕ) ≤ 3 ∧
    (run_batch_operations
        (fun e ff i st => add_product_listing e ff (toString i) i false st)
        "Test Shop A" 3 true []).2.1 +
      (run_batch_operations
        (fun e ff i st => add_product_listing e ff (toString i) i false st)
        "Test Shop A" 3 true []).2.2.1 = 3 :=
  ⟨by decide,
   C5_batch_sum
     (fun e ff i st => add_product_listing e ff (toString i) i false st)
     "Test Shop A" 3 true [] (by decide)⟩

/-! ### C6 — recent-transaction query -/

/-- Newest-first ordering of transaction records: a record may precede
another only if its creation time is at least as late. -/
def newestFirst (a b : Transaction) : Prop :=
  b.created_at ≤ a.created_at

/-- Membership in the sorted-insert helper. -/
theorem mem_insertByCreatedAtDesc (t b : Transaction)
    (l : List Transaction) :
    b ∈ insertByCreatedAtDesc t l ↔ b = t ∨ b ∈ l := by
  induction l with
  | nil => simp [insertByCreatedAtDesc]
  | cons u us ih =>
      by_cases h : u.created_at ≤ t.created_at <;>
        simp [insertByCreatedAtDesc, h, ih] <;> tauto

/-- Inserting into a newest-first sorted list keeps it sorted. -/
theorem sorted_insertByCreatedAtDesc (t : Transaction)
    (l : List Transaction) (h : l.Sorted newestFirst) :
    (insertByCreatedAtDesc t l).Sorted newestFirst := by
  induction l with
  | nil => simp [insertByCreatedAtDesc, newestFirst]
  | cons u us ih =>
      rw [List.sorted_cons] at h
      by_cases hc : u.created_at ≤ t.created_at
      · simp only [insertByCreatedAtDesc, if_pos hc]
        rw [List.sorted_cons]
        refine ⟨?_, List.sorted_cons.mpr h⟩
        intro b hb
        rcases List.mem_cons.mp hb with rfl | hb'
        · exact hc
        · exact le_trans (h.1 b hb') hc
      · simp only [insertByCreatedAtDesc, if_neg hc]
        rw [List.sorted_cons]
        refine ⟨?_, ih h.2⟩
        intro b hb
        rcases (mem_insertByCreatedAtDesc t b us).mp hb with rfl | hb'
        · exact le_of_lt (lt_of_not_le hc)
        · exact h.1 b hb'

/-- The select-call ordering produces a newest-first sorted list. -/
theorem sorted_sortByCreatedAtDesc (l : List Transaction) :
    (sortByCreatedAtDesc l).Sorted newestFirst := by
  induction l with
  | nil => simp [sortByCreatedAtDesc]
  | cons t ts ih =>
      simp only [sortByCreatedAtDesc]
      exact sorted_insertByCreatedAtDesc t _ ih

/-- C6: the recent-transaction query returns at most `limit` records,
ordered newest first by creation time; and when the store read fails it
returns the empty list (reporting the error) instead of raising. -/
theorem C6_fetch_recent (limit : ℕ) (store : List Transaction) :
    (fetch_recent_transactions limit false store).1.length ≤ limit ∧
    (fetch_recent_transactions limit false store).1.Sorted newestFirst ∧
    (fetch_recent_transactions limit true store).1 = [] := by
  refine ⟨?_, ?_, rfl⟩
  · show ((sortByCreatedAtDesc store).take limit).length ≤ limit
    rw [List.length_take]
    exact min_le_left _ _
  · show ((sortByCreatedAtDesc store).take limit).Sorted newestFirst
    exact List.Pairwise.sublist (List.take_sublist _ _)
      (sorted_sortByCreatedAtDesc store)

/-! ### C7 — manual void is unconditional and idempotent -/

/-- C7: voiding a transaction id sets the status of every matching record
to VOIDED no matter its current status (vacuously fine when no record
matches), completes with the success message rather than an error, and is
idempotent: a second void of the same id leaves the table exactly as the
first did. -/
theorem C7_void_unconditional_idempotent (id : String)
    (store : List Transaction) :
    (∀ t ∈ (void_transaction id false store).1, t.id = id →
        t.status = Status.VOIDED) ∧
    (void_transaction id false store).2 =
      [Effect.successMsg "Transaction voided successfully"] ∧
    (void_transaction id false (void_transaction id false store).1).1 =
      (void_transaction id false store).1 := by
  refine ⟨?_, rfl, ?_⟩
  · intro t ht hid
    rcases List.mem_map.mp ht with ⟨s, _, rfl⟩
    by_cases h : s.id = id
    · simp [h]
    · simp only [if_neg h] at hid ⊢
      exact absurd hid h
  · show (List.map _ store).map _ = List.map _ store
    rw [List.map_map]
    apply List.map_congr_left
    intro s _
    by_cases h : s.id = id <;> simp [Function.comp, h]

/-! ### C8 — VOIDED is absorbing -/

/-- One system operation never turns a VOIDED record PROVISIONAL: the
record at any existing position keeps its id, and keeps status VOIDED if
it had it. A guarded run only appends a new record, a manual void only
moves statuses to VOIDED, and a query does not write. -/
theorem applySysOp_preserves_voided (op : SysOp) (s : List Transaction)
    (j : ℕ) (t : Transaction) (ht : s[j]? = some t) :
    ∃ t' : Transaction, (applySysOp s op)[j]? = some t' ∧
      t'.id = t.id ∧
      (t.status = Status.VOIDED → t'.status = Status.VOIDED) := by
  have hj : j < s.length := (List.getElem?_eq_some_iff.mp ht).1
  cases op with
  | guarded e p r u body now iFail =>
      cases iFail with
      | false =>
          refine ⟨t, ?_, rfl, fun hv => hv⟩
          show (guardedRun e p r u body now false s).1[j]? = some t
          rw [guardedRun_store_ok e p u r body now s,
            List.getElem?_append_left hj]
          exact ht
      | true =>
          refine ⟨t, ?_, rfl, fun hv => hv⟩
          show (guardedRun e p r u body now true s).1[j]? = some t
          rw [guardedRun_store_insertFails e p u r body now s]
          exact ht
  | voidTxn id uFail =>
      cases uFail with
      | false =>
          refine ⟨if t.id = id then { t with status := Status.VOIDED }
              else t, ?_, ?_, ?_⟩
          · show (s.map fun x =>
                if x.id = id then { x with status := Status.VOIDED }
                else x)[j]? = _
            rw [List.getElem?_map, ht]
            rfl
          · by_cases h : t.id = id <;> simp [h]
          · intro hv
            by_cases h : t.id = id <;> simp [h, hv]
      | true => exact ⟨t, ht, rfl, fun hv => hv⟩
  | fetchRecent limit qFail => exact ⟨t, ht, rfl, fun hv => hv⟩

/-- C8: under any sequence of system operations (guarded runs, manual
voids, queries), a record that is VOIDED stays VOIDED — its position
still holds a record with the same id and status VOIDED afterwards; no
VOIDED record ever becomes PROVISIONAL. -/
theorem C8_voided_stays_voided (ops : List SysOp) (s : List Transaction)
    (j : ℕ) (t : Transaction) (ht : s[j]? = some t)
    (hv : t.status = Status.VOIDED) :
    ∃ t' : Transaction, (runSysOps s ops)[j]? = some t' ∧
      t'.id = t.id ∧ t'.status = Status.VOIDED := by
  induction ops generalizing s t with
  | nil => exact ⟨t, ht, rfl, hv⟩
  | cons op ops ih =>
      obtain ⟨t1, ht1, hid1, hst1⟩ := applySysOp_preserves_voided op s j t ht
      obtain ⟨t2, ht2, hid2, hst2⟩ := ih (applySysOp s op) t1 ht1 (hst1 hv)
      exact ⟨t2, ht2, hid2.trans hid1, hst2⟩

/-- Witness for C8: a VOIDED record survives a manual void of another id
followed by a successful guarded run. -/
theorem C8_witness :
    ∃ t' : Transaction,
      (runSysOps
          [⟨"txn-0004", "Test Shop A", "listing", Status.VOIDED, 1 / 10, 2⟩]
          [SysOp.voidTxn "txn-9999" false,
           SysOp.guarded "Test Shop B" "smart_copy" 1 "txn-0005"
             (Except.ok ()) 9 false])[0]? = some t' ∧
      t'.id =
        (⟨"txn-0004", "Test Shop A", "listing", Status.VOIDED, 1 / 10, 2⟩ :
          Transaction).id ∧
      t'.status = Status.VOIDED :=
  C8_voided_stays_voided
    [SysOp.voidTxn "txn-9999" false,
     SysOp.guarded "Test Shop B" "smart_copy" 1 "txn-0005"
       (Except.ok ()) 9 false]
    [⟨"txn-0004", "Test Shop A", "listing", Status.VOIDED, 1 / 10, 2⟩]
    0 ⟨"txn-0004", "Test Shop A", "listing", Status.VOIDED, 1 / 10, 2⟩
    rfl rfl

/-! ### C9 — what construction does and does not do -/

/-- C9, counterexample: constructing a guard does not only generate the
identifier and store the inputs — `__init__` also calls
`init_supabase()`, which reads the secrets configuration and constructs
the Supabase client, so the construction trace is not the empty,
interaction-free trace the claim requires. -/
theorem C9_counterexample :
    (monitor_guard.init "Test Shop A" "listing" (1 / 10) "txn-0006"
      []).2.2 = [Effect.clientInit] ∧
    ¬ (monitor_guard.init "Test Shop A" "listing" (1 / 10) "txn-0006"
      []).2.2 = [] :=
  ⟨rfl, by decide⟩

/-- C9, amended: construction stores the inputs unchanged, sets the
transaction identifier to the freshly generated uuid, and additionally
initializes the Supabase client (the one external interaction at
construction); it performs no persistence — the transactions table is
untouched at construction, and still untouched after `__enter__`, so
nothing is persisted before the guard exits. -/
theorem C9_construction_no_persistence (e p u : String) (r : ℚ)
    (store : List Transaction) (g : monitor_guard) :
    (monitor_guard.init e p r u store).1 =
      { entity_id := e, product_key := p, revenue_potential := r,
        transaction_id := u, exception_occurred := false } ∧
    (monitor_guard.init e p r u store).2.1 = store ∧
    (monitor_guard.init e p r u store).2.2 = [Effect.clientInit] ∧
    (g.enter store).2.1 = store :=
  ⟨rfl, rfl, rfl, rfl⟩

/-! ### C10 — no precondition is enforced -/

/-- C10: the guard validates none of its construction inputs — for any
entity id, product key and revenue value, including empty strings and
negative prices, construction succeeds and stores exactly the given
values, and the record persisted at exit carries exactly those values
together with the generated identifier. -/
theorem C10_no_input_validation (e p u : String) (r : ℚ)
    (body : BodyResult) (now : ℕ) (store : List Transaction) :
    ((monitor_guard.init e p r u store).1.entity_id = e ∧
     (monitor_guard.init e p r u store).1.product_key = p ∧
     (monitor_guard.init e p r u store).1.revenue_potential = r) ∧
    ∃ t : Transaction,
      (guardedRun e p r u body now false store).1 = store ++ [t] ∧
      t.entity_id = e ∧ t.product_key = p ∧ t.revenue = r ∧ t.id = u :=
  ⟨⟨rfl, rfl, rfl⟩,
   ⟨_, guardedRun_store_ok e p u r body now store, rfl, rfl, rfl, rfl⟩⟩
